import Mathlib

/-!
Shallow embedding of the DARF extractor in `leitor-darf.py`.

The script's core is `extrair_dados`: per page it locates metadata (date and
bank) with the regex `pattern_data_banco`, scans the page's text with the
regex `pattern_linha` for DARF records, filters out matches whose description
contains an exclusion term, and appends normalized rows to a shared list.

The regexes are embedded as terms of a small regex AST `RE`, together with a
backtracking matcher `matchFuel` that follows Python `re` semantics: leftmost
match, alternation tries the left branch first, greedy repetition prefers
longer matches, lazy repetition prefers shorter ones, and `finditer` resumes
scanning at the end of each match.  The matcher is written with structural
recursion (fuel on the outside) so that it evaluates inside the kernel.
-/

namespace LeitorDarf

/-! ### Python string primitives used by the script -/

/-- Whitespace as recognised by Python's `str.strip` and the regex class
`\s` (ASCII whitespace plus the Unicode space characters). -/
def pyIsSpace (c : Char) : Bool :=
  c == ' ' || c == '\t' || c == '\n' || c == '\x0b' || c == '\x0c' || c == '\r' ||
  c == '\x1c' || c == '\x1d' || c == '\x1e' || c == '\x1f' || c == '\x85' ||
  c == '\xa0' || c == ' ' || (' ' ≤ c && c ≤ ' ') ||
  c == ' ' || c == ' ' || c == ' ' || c == ' ' || c == '　'

/-- Line boundaries recognised by Python's `str.splitlines`. -/
def pyIsLineBreak (c : Char) : Bool :=
  c == '\n' || c == '\r' || c == '\x0b' || c == '\x0c' ||
  c == '\x1c' || c == '\x1d' || c == '\x1e' || c == '\x85' ||
  c == ' ' || c == ' '

/-- Helper for `pySplitlines`: accumulates the current line (reversed). -/
def pySplitlinesAux : List Char → List Char → List (List Char)
  | [], acc => if acc.isEmpty then [] else [acc.reverse]
  | '\r' :: '\n' :: rest, acc => acc.reverse :: pySplitlinesAux rest []
  | c :: rest, acc =>
    if pyIsLineBreak c then acc.reverse :: pySplitlinesAux rest []
    else pySplitlinesAux rest (c :: acc)

/-- Python's `str.splitlines` (`texto.splitlines()` on line 44 of the script). -/
def pySplitlines (s : String) : List String :=
  (pySplitlinesAux s.data []).map String.mk

/-- Python's `str.strip` with no argument: drop leading and trailing
whitespace. -/
def pyStrip (s : String) : String :=
  String.mk (((s.data.dropWhile pyIsSpace).reverse.dropWhile pyIsSpace).reverse)

/-- Python's `str.replace` where the pattern is a single character `alvo`
and the replacement is the character list `novo` (covers `replace('.', '')`,
`replace(',', '.')` and `replace('\n', ' ')` from the script). -/
def pyReplace (s : String) (alvo : Char) (novo : List Char) : String :=
  String.mk ((s.data.map (fun c => if c == alvo then novo else [c])).flatten)

/-- Python's `str.lower` restricted to the Latin range the script works
with: ASCII `A`-`Z` and the Latin-1 accented capitals `À`-`Þ` (except `×`)
are shifted to the corresponding lowercase letters. -/
def pyLowerChar (c : Char) : Char :=
  if 'A' ≤ c && c ≤ 'Z' then Char.ofNat (c.toNat + 32)
  else if 'À' ≤ c && c ≤ 'Þ' && c != '×' then Char.ofNat (c.toNat + 32)
  else c

/-- Python's `str.lower` over a whole string. -/
def pyLower (s : String) : String := String.mk (s.data.map pyLowerChar)

/-- Whether `sub` occurs as a contiguous sublist at the head of `l`. -/
def headMatches : List Char → List Char → Bool
  | [], _ => true
  | _ :: _, [] => false
  | a :: as, b :: bs => a == b && headMatches as bs

/-- Python's substring test `sub in s` (contiguous occurrence anywhere). -/
def pyContains (s sub : String) : Bool :=
  go sub.data s.data
where
  go (needle : List Char) : List Char → Bool
    | [] => headMatches needle []
    | c :: rest => headMatches needle (c :: rest) || go needle rest

/-! ### Regex AST and backtracking matcher -/

/-- Regex abstract syntax: enough to express the two patterns of the script.
`star` carries a laziness flag (`lz = true` for `*?`); `group i r` is a
capturing group numbered `i`. -/
inductive RE where
  | eps
  | cls (p : Char → Bool)
  | seq (a b : RE)
  | alt (a b : RE)
  | star (lz : Bool) (a : RE)
  | group (i : Nat) (a : RE)

/-- Capture table: group number paired with the captured substring; a new
capture for a group is consed on the front. -/
abbrev Caps := List (Nat × String)

/-- Record a capture for group `i`. -/
def setG (i : Nat) (v : String) (caps : Caps) : Caps := (i, v) :: caps

/-- Look up the most recent capture of group `i` (empty if absent). -/
def getG : Caps → Nat → String
  | [], _ => ""
  | (j, v) :: rest, i => if j == i then v else getG rest i

/-- Result of a match attempt: captures plus the unconsumed remainder. -/
abbrev MRes := Option (Caps × List Char)

/-- Continuation taking the remaining input and the captures so far. -/
abbrev MCont := List Char → Caps → MRes

/-- First-success choice, mirroring the backtracking order of Python's
regex engine. -/
def orM (x : MRes) (y : Unit → MRes) : MRes :=
  match x with
  | some v => some v
  | none => y ()

/-- One layer of the backtracking matcher.  `rec` is the matcher at one
less unit of fuel, used to re-enter a `star` after its body consumed at
least one character (Python stops repeating on a zero-width body match,
which the length guard reflects). -/
def matchGo (rec : RE → List Char → Caps → MCont → MRes) :
    RE → List Char → Caps → MCont → MRes
  | .eps, s, caps, k => k s caps
  | .cls _, [], _, _ => none
  | .cls p, c :: rest, caps, k => if p c then k rest caps else none
  | .seq a b, s, caps, k =>
    matchGo rec a s caps (fun s1 c1 => matchGo rec b s1 c1 k)
  | .alt a b, s, caps, k =>
    orM (matchGo rec a s caps k) (fun _ => matchGo rec b s caps k)
  | .star lz a, s, caps, k =>
    if lz then
      orM (k s caps) (fun _ =>
        matchGo rec a s caps (fun s1 c1 =>
          if s1.length < s.length then rec (.star lz a) s1 c1 k else none))
    else
      orM (matchGo rec a s caps (fun s1 c1 =>
          if s1.length < s.length then rec (.star lz a) s1 c1 k else none))
        (fun _ => k s caps)
  | .group i a, s, caps, k =>
    matchGo rec a s caps (fun s1 c1 =>
      k s1 (setG i (String.mk (s.take (s.length - s1.length))) c1))

/-- Fuel-indexed matcher; the fuel bounds the number of `star` re-entries,
each of which consumes at least one character, so `length + 1` fuel is
always enough. -/
def matchFuel : Nat → RE → List Char → Caps → MCont → MRes
  | 0, _, _, _, _ => none
  | fuel + 1, r, s, caps, k => matchGo (matchFuel fuel) r s caps k

/-- Attempt a match anchored at the start of `s` (Python `pattern.match`
at one position during a scan). -/
def matchAt (r : RE) (s : List Char) : MRes :=
  matchFuel (s.length + 1) r s [] (fun rest caps => some (caps, rest))

/-- Scan left to right for the leftmost match (Python `pattern.search`). -/
def searchFrom (r : RE) : List Char → MRes
  | [] => matchAt r []
  | c :: rest => orM (matchAt r (c :: rest)) (fun _ => searchFrom r rest)

/-- Helper for `reFinditer`: after each match resume at its end (advancing
one character on a zero-width match, as Python does). -/
def finditerAux (r : RE) : Nat → List Char → List Caps
  | 0, _ => []
  | fuel + 1, s =>
    match searchFrom r s with
    | none => []
    | some (caps, rest) =>
      caps :: finditerAux r fuel (if rest.length < s.length then rest else rest.drop 1)

/-- Python `pattern.finditer(s)`: the capture tables of all non-overlapping
matches, left to right. -/
def reFinditer (r : RE) (s : String) : List Caps :=
  finditerAux r (s.data.length + 1) s.data

/-- Python `pattern.search(s)`: the capture table of the leftmost match. -/
def reSearch (r : RE) (s : String) : Option Caps :=
  (searchFrom r s.data).map Prod.fst

/-! ### The two patterns of the script -/

/-- Regex `\d` (as used by the script: decimal digits). -/
def digitRE : RE := .cls Char.isDigit

/-- Regex `\s`. -/
def wsRE : RE := .cls pyIsSpace

/-- Regex `.` without `DOTALL`: any character except a newline. -/
def dotRE : RE := .cls (fun c => c != '\n')

/-- Single literal character. -/
def chrRE (c : Char) : RE := .cls (fun x => x == c)

/-- Exact repetition `r{n}`. -/
def repRE (r : RE) : Nat → RE
  | 0 => .eps
  | n + 1 => .seq r (repRE r n)

/-- Greedy option `r?`. -/
def optRE (r : RE) : RE := .alt r .eps

/-- Greedy `r+`. -/
def plusG (r : RE) : RE := .seq r (.star false r)

/-- Lazy `r+?`. -/
def plusL (r : RE) : RE := .seq r (.star true r)

/-- Regex `\d{1,3}` (greedy: three digits first, then two, then one). -/
def digits13 : RE := .seq digitRE (optRE (.seq digitRE (optRE digitRE)))

/-- Regex `\.\d{3}`, one thousands group. -/
def milharRE : RE := .seq (chrRE '.') (repRE digitRE 3)

/-- Regex `\d{1,3}(?:\.\d{3})*,\d{2}`: an amount in Brazilian format. -/
def amountRE : RE :=
  .seq digits13 (.seq (.star false milharRE) (.seq (chrRE ',') (repRE digitRE 2)))

/-- The record regex `pattern_linha` of the script (lines 9-16):
`(?P<codigo>\d{4})\s+(?P<descricao>.+?)\s+(?P<principal>AMT)\s+`
`(?P<juros>AMT|-)\s+(?P<multa>AMT|-)\s+(?P<total>AMT)` with `AMT` the
Brazilian amount format.  Groups are numbered 1-6 in order. -/
def pattern_linha : RE :=
  .seq (.group 1 (repRE digitRE 4)) (.seq (plusG wsRE)
  (.seq (.group 2 (plusL dotRE)) (.seq (plusG wsRE)
  (.seq (.group 3 amountRE) (.seq (plusG wsRE)
  (.seq (.group 4 (.alt amountRE (chrRE '-'))) (.seq (plusG wsRE)
  (.seq (.group 5 (.alt amountRE (chrRE '-'))) (.seq (plusG wsRE)
  (.group 6 amountRE))))))))))

/-- Regex `\d{2}/\d{2}/\d{4}`: a `DD/MM/YYYY` date. -/
def dataRE : RE :=
  .seq (repRE digitRE 2) (.seq (chrRE '/')
  (.seq (repRE digitRE 2) (.seq (chrRE '/') (repRE digitRE 4))))

/-- Character class `[A-ZÀ-Ú0-9\.\s]` of the bank-name pattern. -/
def bancoChar (c : Char) : Bool :=
  ('A' ≤ c && c ≤ 'Z') || ('À' ≤ c && c ≤ 'Ú') || c.isDigit || c == '.' || pyIsSpace c

/-- Regex `\d{3}\s*-\s*[A-ZÀ-Ú0-9\.\s]+`: bank code and name. -/
def bancoRE : RE :=
  .seq (repRE digitRE 3) (.seq (.star false wsRE)
  (.seq (chrRE '-') (.seq (.star false wsRE) (plusG (.cls bancoChar)))))

/-- The metadata regex `pattern_data_banco` of the script (lines 19-22):
`(\d{2}/\d{2}/\d{4})\s*(\d{3}\s*-\s*[A-ZÀ-Ú0-9\.\s]+)`. -/
def pattern_data_banco : RE :=
  .seq (.group 1 dataRE) (.seq (.star false wsRE) (.group 2 bancoRE))

/-! ### The extractor `extrair_dados` -/

/-- The exclusion list `EXCECOES_DESCRICAO` (lines 25-28 of the script). -/
def EXCECOES_DESCRICAO : List String :=
  ["Agência", "Estabelecimento", "Valor Reservado", "Restituído", "Referência"]

/-- The filter on line 63 of the script:
`any(term.lower() in descricao.lower() for term in EXCECOES_DESCRICAO)`. -/
def descricaoExcluida (descricao : String) : Bool :=
  EXCECOES_DESCRICAO.any (fun term => pyContains (pyLower descricao) (pyLower term))

/-- One row of the resulting table, with the script's column values. -/
structure Registro where
  codigo : String
  descricao : String
  dataArrec : String
  banco : String
  principal : String
  juros : String
  multa : String
  total : String
deriving Repr, DecidableEq

/-- Amount normalization applied to every monetary group (lines 71-76):
`v.replace('.', '').replace(',', '.')`. -/
def normalizeMon (v : String) : String :=
  pyReplace (pyReplace v '.' []) ',' ['.']

/-- The body of the inner loop (lines 59-77): strip the description, skip
the match when an exclusion term occurs in it, otherwise build the row. -/
def linhaRegistro (meta : String × String) (caps : Caps) : Option Registro :=
  let descricao := pyStrip (getG caps 2)
  if descricaoExcluida descricao then none
  else some
    { codigo := getG caps 1
      descricao := descricao
      dataArrec := meta.1
      banco := meta.2
      principal := normalizeMon (getG caps 3)
      juros := if getG caps 4 ≠ "-" then normalizeMon (getG caps 4) else "0.00"
      multa := if getG caps 5 ≠ "-" then normalizeMon (getG caps 5) else "0.00"
      total := normalizeMon (getG caps 6) }

/-- The footer region of line 47: `" ".join(linhas[-8:]).strip()`, where
`linhas = texto.splitlines()`. -/
def rodapeDe (texto : String) : String :=
  let linhas := pySplitlines texto
  pyStrip (String.intercalate " " (linhas.drop (linhas.length - 8)))

/-- The flattened page text of line 54: `texto.replace('\n', ' ')`. -/
def textoSemQuebras (texto : String) : String :=
  pyReplace texto '\n' [' ']

/-- The metadata search of lines 46-56: search the footer, fall back to the
flattened text, and default to two empty strings. -/
def buscaDataBanco (texto : String) : String × String :=
  match reSearch pattern_data_banco (rodapeDe texto) with
  | some m => (getG m 1, pyStrip (getG m 2))
  | none =>
    match reSearch pattern_data_banco (textoSemQuebras texto) with
    | some m => (getG m 1, pyStrip (getG m 2))
    | none => ("", "")

/-- All rows contributed by one page (lines 46-77): metadata computed once,
then one row per accepted `pattern_linha` match, in match order. -/
def registrosDaPagina (texto : String) : List Registro :=
  let meta := buscaDataBanco texto
  (reFinditer pattern_linha texto).filterMap (linhaRegistro meta)

/-- The page loop of lines 42-77, with the accumulating `registros` list. -/
def extrairLoop : List String → List Registro → List Registro
  | [], registros => registros
  | pagina :: resto, registros =>
    extrairLoop resto (registros ++ registrosDaPagina pagina)

/-- The function `extrair_dados`, abstracted over the list of page texts
that PyMuPDF supplies (one string per page, in document order). -/
def extrairDados (paginas : List String) : List Registro :=
  extrairLoop paginas []

/-- Outcome of the caller's check on lines 91-94 of the script. -/
inductive UIOutcome where
  | warning (msg : String)
  | success
deriving Repr, DecidableEq

/-- The warning text of line 92. -/
def avisoSemDados : String :=
  "Nenhum dado extraído. Verifique se o layout do PDF corresponde aos padrões esperados."

/-- The caller's branch on `df.empty` (lines 91-94). -/
def uiResultado (df : List Registro) : UIOutcome :=
  if df.isEmpty then UIOutcome.warning avisoSemDados else UIOutcome.success

/-! ### A declarative match relation and soundness of the matcher -/

/-- Declarative matching: `REMatch r s s' c c'` says the regex `r` can
consume a prefix of `s` leaving `s'`, turning the capture table `c` into
`c'`.  Constructors mirror the matcher's cases; the order of exploration is
irrelevant here. -/
inductive REMatch : RE → List Char → List Char → Caps → Caps → Prop where
  | eps : ∀ s c, REMatch .eps s s c c
  | cls : ∀ p ch s c, p ch = true → REMatch (.cls p) (ch :: s) s c c
  | seq : ∀ a b s1 s2 s3 c1 c2 c3,
      REMatch a s1 s2 c1 c2 → REMatch b s2 s3 c2 c3 → REMatch (.seq a b) s1 s3 c1 c3
  | altL : ∀ a b s s' c c', REMatch a s s' c c' → REMatch (.alt a b) s s' c c'
  | altR : ∀ a b s s' c c', REMatch b s s' c c' → REMatch (.alt a b) s s' c c'
  | starDone : ∀ lz a s c, REMatch (.star lz a) s s c c
  | starStep : ∀ lz a s1 s2 s3 c1 c2 c3,
      REMatch a s1 s2 c1 c2 → REMatch (.star lz a) s2 s3 c2 c3 →
      REMatch (.star lz a) s1 s3 c1 c3
  | group : ∀ i a s s' c c',
      REMatch a s s' c c' →
      REMatch (.group i a) s s' c (setG i (String.mk (s.take (s.length - s'.length))) c')

theorem orM_eq_some {x : MRes} {y : Unit → MRes} {v : Caps × List Char}
    (h : orM x y = some v) : x = some v ∨ (x = none ∧ y () = some v) := by
  cases hx : x with
  | none => right; exact ⟨rfl, by simpa [orM, hx] using h⟩
  | some w => left; simpa [orM, hx] using h

theorem matchGo_sound
    (rec : RE → List Char → Caps → MCont → MRes)
    (hrec : ∀ r s caps k res, rec r s caps k = some res →
      ∃ s' caps', REMatch r s s' caps caps' ∧ k s' caps' = some res) :
    ∀ r s caps k res, matchGo rec r s caps k = some res →
      ∃ s' caps', REMatch r s s' caps caps' ∧ k s' caps' = some res := by
  intro r
  induction r with
  | eps =>
    intro s caps k res h
    exact ⟨s, caps, REMatch.eps s caps, by simpa [matchGo] using h⟩
  | cls p =>
    intro s caps k res h
    cases s with
    | nil => simp [matchGo] at h
    | cons ch rest =>
      by_cases hp : p ch = true
      · exact ⟨rest, caps, REMatch.cls p ch rest caps hp,
          by simpa [matchGo, hp] using h⟩
      · simp [matchGo, hp] at h
  | seq a b iha ihb =>
    intro s caps k res h
    simp only [matchGo] at h
    obtain ⟨s1, c1, hm1, h1⟩ := iha s caps _ res h
    obtain ⟨s2, c2, hm2, h2⟩ := ihb s1 c1 k res h1
    exact ⟨s2, c2, REMatch.seq a b s s1 s2 caps c1 c2 hm1 hm2, h2⟩
  | alt a b iha ihb =>
    intro s caps k res h
    simp only [matchGo] at h
    rcases orM_eq_some h with h1 | ⟨_, h2⟩
    · obtain ⟨s', c', hm, hk⟩ := iha s caps k res h1
      exact ⟨s', c', REMatch.altL a b s s' caps c' hm, hk⟩
    · obtain ⟨s', c', hm, hk⟩ := ihb s caps k res h2
      exact ⟨s', c', REMatch.altR a b s s' caps c' hm, hk⟩
  | star lz a iha =>
    intro s caps k res h
    simp only [matchGo] at h
    have step : matchGo rec a s caps (fun s1 c1 =>
        if s1.length < s.length then rec (.star lz a) s1 c1 k else none) = some res →
        ∃ s' caps', REMatch (.star lz a) s s' caps caps' ∧ k s' caps' = some res := by
      intro hs
      obtain ⟨s1, c1, hm1, h1⟩ := iha s caps _ res hs
      by_cases hlen : s1.length < s.length
      · simp only [hlen, if_true] at h1
        obtain ⟨s2, c2, hm2, h2⟩ := hrec _ s1 c1 k res h1
        exact ⟨s2, c2, REMatch.starStep lz a s s1 s2 caps c1 c2 hm1 hm2, h2⟩
      · simp [hlen] at h1
    cases lz with
    | true =>
      simp only [if_true] at h
      rcases orM_eq_some h with h1 | ⟨_, h2⟩
      · exact ⟨s, caps, REMatch.starDone true a s caps, h1⟩
      · exact step h2
    | false =>
      simp only [Bool.false_eq_true, if_false] at h
      rcases orM_eq_some h with h1 | ⟨_, h2⟩
      · exact step h1
      · exact ⟨s, caps, REMatch.starDone false a s caps, h2⟩
  | group i a iha =>
    intro s caps k res h
    simp only [matchGo] at h
    obtain ⟨s1, c1, hm1, h1⟩ := iha s caps _ res h
    exact ⟨s1, setG i (String.mk (s.take (s.length - s1.length))) c1,
      REMatch.group i a s s1 caps c1 hm1, h1⟩

theorem matchFuel_sound :
    ∀ fuel r s caps k res, matchFuel fuel r s caps k = some res →
      ∃ s' caps', REMatch r s s' caps caps' ∧ k s' caps' = some res := by
  intro fuel
  induction fuel with
  | zero => intro r s caps k res h; simp [matchFuel] at h
  | succ n ih =>
    intro r s caps k res h
    exact matchGo_sound (matchFuel n) ih r s caps k res (by simpa [matchFuel] using h)

/-- A successful anchored attempt yields a declarative match whose captures
are the reported ones. -/
theorem matchAt_sound {r : RE} {s rest : List Char} {caps : Caps}
    (h : matchAt r s = some (caps, rest)) : REMatch r s rest [] caps := by
  obtain ⟨s', caps', hm, hk⟩ := matchFuel_sound _ r s [] _ _ h
  have : caps' = caps ∧ s' = rest := by
    constructor <;> { injection hk with hk1; cases hk1; rfl }
  obtain ⟨h1, h2⟩ := this
  rw [h1, h2] at hm
  exact hm

theorem searchFrom_sound {r : RE} {s rest : List Char} {caps : Caps}
    (h : searchFrom r s = some (caps, rest)) :
    ∃ t : List Char, REMatch r t rest [] caps := by
  induction s with
  | nil => exact ⟨[], matchAt_sound (by simpa [searchFrom] using h)⟩
  | cons c cs ih =>
    simp only [searchFrom] at h
    rcases orM_eq_some h with h1 | ⟨_, h2⟩
    · exact ⟨c :: cs, matchAt_sound h1⟩
    · exact ih h2

theorem finditerAux_sound {r : RE} {caps : Caps} :
    ∀ fuel s, caps ∈ finditerAux r fuel s →
      ∃ t rest : List Char, REMatch r t rest [] caps := by
  intro fuel
  induction fuel with
  | zero => intro s h; simp [finditerAux] at h
  | succ n ih =>
    intro s h
    simp only [finditerAux] at h
    cases hs : searchFrom r s with
    | none => rw [hs] at h; simp at h
    | some res =>
      obtain ⟨caps0, rest0⟩ := res
      rw [hs] at h
      rcases List.mem_cons.mp h with h1 | h2
      · subst h1
        obtain ⟨t, hm⟩ := searchFrom_sound hs
        exact ⟨t, rest0, hm⟩
      · exact ih _ h2

/-- Every capture table produced by `reFinditer` comes from a declarative
match of the pattern starting with an empty table. -/
theorem reFinditer_sound {r : RE} {s : String} {caps : Caps}
    (h : caps ∈ reFinditer r s) :
    ∃ t rest : List Char, REMatch r t rest [] caps :=
  finditerAux_sound _ _ h

/-- Matching never lengthens the input. -/
theorem REMatch_len {r : RE} {s s' : List Char} {c c' : Caps}
    (h : REMatch r s s' c c') : s'.length ≤ s.length := by
  induction h with
  | eps => exact le_refl _
  | cls => simp
  | seq _ _ _ _ _ _ _ _ _ _ ih1 ih2 => exact le_trans ih2 ih1
  | altL _ _ _ _ _ _ _ ih => exact ih
  | altR _ _ _ _ _ _ _ ih => exact ih
  | starDone => exact le_refl _
  | starStep _ _ _ _ _ _ _ _ _ _ ih1 ih2 => exact le_trans ih2 ih1
  | group _ _ _ _ _ _ _ ih => exact ih

/-- Whether a regex contains no capturing group. -/
def groupFree : RE → Bool
  | .eps => true
  | .cls _ => true
  | .seq a b => groupFree a && groupFree b
  | .alt a b => groupFree a && groupFree b
  | .star _ a => groupFree a
  | .group _ _ => false

/-- Matching a group-free regex leaves the capture table unchanged. -/
theorem REMatch_groupFree {r : RE} {s s' : List Char} {c c' : Caps}
    (h : REMatch r s s' c c') (hg : groupFree r = true) : c' = c := by
  induction h with
  | eps => rfl
  | cls => rfl
  | seq _ _ _ _ _ _ _ _ _ _ ih1 ih2 =>
    simp only [groupFree, Bool.and_eq_true] at hg
    rw [ih2 hg.2, ih1 hg.1]
  | altL _ _ _ _ _ _ _ ih =>
    simp only [groupFree, Bool.and_eq_true] at hg
    exact ih hg.1
  | altR _ _ _ _ _ _ _ ih =>
    simp only [groupFree, Bool.and_eq_true] at hg
    exact ih hg.2
  | starDone => rfl
  | starStep _ _ _ _ _ _ _ _ _ _ ih1 ih2 =>
    simp only [groupFree] at hg
    rw [ih2 hg, ih1 hg]
  | group => simp [groupFree] at hg

theorem REMatch_seq_inv {a b : RE} {s s' : List Char} {c c' : Caps}
    (h : REMatch (.seq a b) s s' c c') :
    ∃ sm cm, REMatch a s sm c cm ∧ REMatch b sm s' cm c' := by
  cases h with
  | seq _ _ _ s2 _ _ c2 _ h1 h2 => exact ⟨s2, c2, h1, h2⟩

theorem REMatch_group_inv {i : Nat} {a : RE} {s s' : List Char} {c c' : Caps}
    (h : REMatch (.group i a) s s' c c') :
    ∃ cm, REMatch a s s' c cm ∧
      c' = setG i (String.mk (s.take (s.length - s'.length))) cm := by
  cases h with
  | group _ _ _ _ _ cm hm => exact ⟨cm, hm, rfl⟩

theorem REMatch_cls_inv {p : Char → Bool} {s s' : List Char} {c c' : Caps}
    (h : REMatch (.cls p) s s' c c') :
    ∃ ch, s = ch :: s' ∧ p ch = true ∧ c' = c := by
  cases h with
  | cls _ ch _ _ hp => exact ⟨ch, rfl, hp, rfl⟩

/-- The first character of a string is a decimal digit. -/
def firstCharDigit (v : String) : Bool :=
  match v.data with
  | [] => false
  | c :: _ => c.isDigit

theorem firstCharDigit_ne_dash {v : String} (h : firstCharDigit v = true) :
    v ≠ "-" := by
  intro hv
  subst hv
  simp [firstCharDigit] at h

/-- Any match of the amount regex begins with a digit and consumes at
least one character. -/
theorem amountRE_first_digit {s s' : List Char} {c c' : Caps}
    (h : REMatch amountRE s s' c c') :
    ∃ ch t, s = ch :: t ∧ ch.isDigit = true ∧ s'.length < s.length := by
  obtain ⟨sm, cm, h1, h2⟩ := REMatch_seq_inv h
  obtain ⟨sa, ca, h3, h4⟩ := REMatch_seq_inv h1
  obtain ⟨ch, hs, hdig, _⟩ := REMatch_cls_inv h3
  refine ⟨ch, sa, hs, hdig, ?_⟩
  have l1 : s'.length ≤ sm.length := REMatch_len h2
  have l2 : sm.length ≤ sa.length := REMatch_len h4
  have : s.length = sa.length + 1 := by rw [hs]; simp
  omega

/-- A capture of a group wrapping the amount regex records a string whose
first character is a digit. -/
theorem group_amount_capture {i : Nat} {s s' : List Char} {c c' : Caps}
    (h : REMatch (.group i amountRE) s s' c c') :
    ∃ v, c' = setG i v c ∧ firstCharDigit v = true := by
  obtain ⟨cm, hm, hc⟩ := REMatch_group_inv h
  have hgf : cm = c := REMatch_groupFree hm (by rfl)
  obtain ⟨ch, t, hs, hdig, hlen⟩ := amountRE_first_digit hm
  refine ⟨String.mk (s.take (s.length - s'.length)), by rw [hc, hgf], ?_⟩
  obtain ⟨m, hmn⟩ : ∃ m, s.length - s'.length = m + 1 := ⟨s.length - s'.length - 1, by omega⟩
  rw [hmn, hs]
  simp [firstCharDigit, List.take, hdig]

/-- For any full match of `pattern_linha` starting from an empty capture
table, the captured `principal` (group 3) and `total` (group 6) both start
with a digit. -/
theorem pattern_linha_groups {s s' : List Char} {caps : Caps}
    (h : REMatch pattern_linha s s' [] caps) :
    firstCharDigit (getG caps 3) = true ∧ firstCharDigit (getG caps 6) = true := by
  obtain ⟨s1, c1, hg1, h1⟩ := REMatch_seq_inv h
  obtain ⟨cm1, hm1, hc1⟩ := REMatch_group_inv hg1
  have e1 : cm1 = [] := REMatch_groupFree hm1 (by rfl)
  obtain ⟨s2, c2, hw1, h2⟩ := REMatch_seq_inv h1
  have e2 : c2 = c1 := REMatch_groupFree hw1 (by rfl)
  obtain ⟨s3, c3, hg2, h3⟩ := REMatch_seq_inv h2
  obtain ⟨cm2, hm2, hc2⟩ := REMatch_group_inv hg2
  have e3 : cm2 = c2 := REMatch_groupFree hm2 (by rfl)
  obtain ⟨s4, c4, hw2, h4⟩ := REMatch_seq_inv h3
  have e4 : c4 = c3 := REMatch_groupFree hw2 (by rfl)
  obtain ⟨s5, c5, hg3, h5⟩ := REMatch_seq_inv h4
  obtain ⟨v3, hc3, hd3⟩ := group_amount_capture hg3
  obtain ⟨s6, c6, hw3, h6⟩ := REMatch_seq_inv h5
  have e5 : c6 = c5 := REMatch_groupFree hw3 (by rfl)
  obtain ⟨s7, c7, hg4, h7⟩ := REMatch_seq_inv h6
  obtain ⟨cm4, hm4, hc4⟩ := REMatch_group_inv hg4
  have e6 : cm4 = c6 := REMatch_groupFree hm4 (by rfl)
  obtain ⟨s8, c8, hw4, h8⟩ := REMatch_seq_inv h7
  have e7 : c8 = c7 := REMatch_groupFree hw4 (by rfl)
  obtain ⟨s9, c9, hg5, h9⟩ := REMatch_seq_inv h8
  obtain ⟨cm5, hm5, hc5⟩ := REMatch_group_inv hg5
  have e8 : cm5 = c8 := REMatch_groupFree hm5 (by rfl)
  obtain ⟨s10, c10, hw5, h10⟩ := REMatch_seq_inv h9
  have e9 : c10 = c9 := REMatch_groupFree hw5 (by rfl)
  obtain ⟨v6, hc6, hd6⟩ := group_amount_capture h10
  subst e1 e2 e3 e4 e5 e6 e7 e8 e9
  subst hc1 hc2 hc3 hc4 hc5 hc6
  constructor
  · simpa [getG, setG] using hd3
  · simpa [getG, setG] using hd6

/-! ### Bridge lemmas between the extractor's pieces -/

/-- Field-level description of a row accepted by the inner-loop body. -/
theorem linhaRegistro_fields {meta : String × String} {caps : Caps} {r : Registro}
    (h : linhaRegistro meta caps = some r) :
    r.codigo = getG caps 1 ∧
    r.descricao = pyStrip (getG caps 2) ∧
    descricaoExcluida (pyStrip (getG caps 2)) = false ∧
    r.dataArrec = meta.1 ∧ r.banco = meta.2 ∧
    r.principal = normalizeMon (getG caps 3) ∧
    r.juros = (if getG caps 4 = "-" then "0.00" else normalizeMon (getG caps 4)) ∧
    r.multa = (if getG caps 5 = "-" then "0.00" else normalizeMon (getG caps 5)) ∧
    r.total = normalizeMon (getG caps 6) := by
  cases hex : descricaoExcluida (pyStrip (getG caps 2)) with
  | true => simp [linhaRegistro, hex] at h
  | false =>
    simp only [linhaRegistro, hex, Bool.false_eq_true, if_false, Option.some.injEq] at h
    subst h
    refine ⟨rfl, rfl, rfl, rfl, rfl, rfl, ?_, ?_, rfl⟩
    · by_cases h4 : getG caps 4 = "-" <;> simp [h4]
    · by_cases h5 : getG caps 5 = "-" <;> simp [h5]

/-- The accumulating page loop is append followed by the per-page rows. -/
theorem extrairLoop_eq (paginas : List String) (acc : List Registro) :
    extrairLoop paginas acc = acc ++ (paginas.map registrosDaPagina).flatten := by
  induction paginas generalizing acc with
  | nil => simp [extrairLoop]
  | cons p ps ih => simp [extrairLoop, ih, List.append_assoc]

/-- Every extracted row comes from some page. -/
theorem mem_extrairDados {paginas : List String} {r : Registro}
    (h : r ∈ extrairDados paginas) : ∃ p ∈ paginas, r ∈ registrosDaPagina p := by
  rw [extrairDados, extrairLoop_eq, List.nil_append] at h
  rw [List.mem_flatten] at h
  obtain ⟨l, hl, hr⟩ := h
  obtain ⟨p, hp, rfl⟩ := List.mem_map.mp hl
  exact ⟨p, hp, hr⟩

/-- Every row of a page comes from an accepted match of `pattern_linha`. -/
theorem mem_registrosDaPagina {p : String} {r : Registro}
    (h : r ∈ registrosDaPagina p) :
    ∃ caps ∈ reFinditer pattern_linha p,
      linhaRegistro (buscaDataBanco p) caps = some r := by
  simp only [registrosDaPagina] at h
  obtain ⟨caps, hc, hlr⟩ := List.mem_filterMap.mp h
  exact ⟨caps, hc, hlr⟩

/-- A page on which every match is rejected contributes no rows. -/
theorem registrosDaPagina_eq_nil {p : String}
    (h : ∀ caps ∈ reFinditer pattern_linha p,
      linhaRegistro (buscaDataBanco p) caps = none) :
    registrosDaPagina p = [] := by
  simp only [registrosDaPagina]
  exact List.filterMap_eq_nil_iff.mpr h

/-! ### Claim theorems -/

/-- C1: for the input line `1234 IMPOSTO DE RENDA 1.234,56 - - 1.234,56`
given as a page's text, the record extractor emits exactly one row with
code `1234`, description `IMPOSTO DE RENDA`, principal `1234.56`, interest
`0.00`, penalty `0.00` and total `1234.56`. -/
theorem c1_linha_exemplo :
    registrosDaPagina "1234 IMPOSTO DE RENDA 1.234,56 - - 1.234,56" =
      [{ codigo := "1234", descricao := "IMPOSTO DE RENDA",
         dataArrec := "", banco := "",
         principal := "1234.56", juros := "0.00",
         multa := "0.00", total := "1234.56" }] := by
  decide

/-- C2: every monetary field of an emitted row is the matched
Brazilian-format amount with periods removed and the comma replaced by a
decimal point; interest and penalty matched as the literal `-` are emitted
as `0.00`; the matched principal and total are never `-`. -/
theorem c2_normalizacao_monetaria (texto : String) (r : Registro)
    (hr : r ∈ registrosDaPagina texto) :
    ∃ caps ∈ reFinditer pattern_linha texto,
      r.principal = normalizeMon (getG caps 3) ∧
      r.juros = (if getG caps 4 = "-" then "0.00" else normalizeMon (getG caps 4)) ∧
      r.multa = (if getG caps 5 = "-" then "0.00" else normalizeMon (getG caps 5)) ∧
      r.total = normalizeMon (getG caps 6) ∧
      getG caps 3 ≠ "-" ∧ getG caps 6 ≠ "-" := by
  obtain ⟨caps, hc, hlr⟩ := mem_registrosDaPagina hr
  obtain ⟨-, -, -, -, -, hp, hj, hm, ht⟩ := linhaRegistro_fields hlr
  obtain ⟨t, rest, hmatch⟩ := reFinditer_sound hc
  obtain ⟨hd3, hd6⟩ := pattern_linha_groups hmatch
  exact ⟨caps, hc, hp, hj, hm, ht,
    firstCharDigit_ne_dash hd3, firstCharDigit_ne_dash hd6⟩

theorem c2_normalizacao_monetaria_witness :
    ({ codigo := "1234", descricao := "IMPOSTO DE RENDA",
       dataArrec := "", banco := "",
       principal := "1234.56", juros := "0.00",
       multa := "0.00", total := "1234.56" } : Registro) ∈
      registrosDaPagina "1234 IMPOSTO DE RENDA 1.234,56 - - 1.234,56" ∧
    ∃ caps ∈ reFinditer pattern_linha "1234 IMPOSTO DE RENDA 1.234,56 - - 1.234,56",
      ({ codigo := "1234", descricao := "IMPOSTO DE RENDA",
         dataArrec := "", banco := "",
         principal := "1234.56", juros := "0.00",
         multa := "0.00", total := "1234.56" } : Registro).principal =
          normalizeMon (getG caps 3) ∧
      ({ codigo := "1234", descricao := "IMPOSTO DE RENDA",
         dataArrec := "", banco := "",
         principal := "1234.56", juros := "0.00",
         multa := "0.00", total := "1234.56" } : Registro).juros =
          (if getG caps 4 = "-" then "0.00" else normalizeMon (getG caps 4)) ∧
      ({ codigo := "1234", descricao := "IMPOSTO DE RENDA",
         dataArrec := "", banco := "",
         principal := "1234.56", juros := "0.00",
         multa := "0.00", total := "1234.56" } : Registro).multa =
          (if getG caps 5 = "-" then "0.00" else normalizeMon (getG caps 5)) ∧
      ({ codigo := "1234", descricao := "IMPOSTO DE RENDA",
         dataArrec := "", banco := "",
         principal := "1234.56", juros := "0.00",
         multa := "0.00", total := "1234.56" } : Registro).total =
          normalizeMon (getG caps 6) ∧
      getG caps 3 ≠ "-" ∧ getG caps 6 ≠ "-" :=
  ⟨by decide, c2_normalizacao_monetaria _ _ (by decide)⟩

/-- C3: every emitted row's description is free of the exclusion terms
(case-insensitively), and a match whose stripped description contains an
exclusion term is skipped and produces no row. -/
theorem c3_filtro_excecoes :
    (∀ paginas r, r ∈ extrairDados paginas → descricaoExcluida r.descricao = false) ∧
    (∀ meta caps, descricaoExcluida (pyStrip (getG caps 2)) = true →
      linhaRegistro meta caps = none) := by
  constructor
  · intro paginas r hr
    obtain ⟨p, _, hp⟩ := mem_extrairDados hr
    obtain ⟨caps, _, hlr⟩ := mem_registrosDaPagina hp
    obtain ⟨-, hdesc, hex, -⟩ := linhaRegistro_fields hlr
    rw [hdesc]
    exact hex
  · intro meta caps h
    simp [linhaRegistro, h]

theorem c3_filtro_excecoes_witness :
    ({ codigo := "1234", descricao := "IMPOSTO DE RENDA",
       dataArrec := "", banco := "",
       principal := "1234.56", juros := "0.00",
       multa := "0.00", total := "1234.56" } : Registro) ∈
      extrairDados ["1234 IMPOSTO DE RENDA 1.234,56 - - 1.234,56"] ∧
    descricaoExcluida
      ({ codigo := "1234", descricao := "IMPOSTO DE RENDA",
         dataArrec := "", banco := "",
         principal := "1234.56", juros := "0.00",
         multa := "0.00", total := "1234.56" } : Registro).descricao = false ∧
    descricaoExcluida (pyStrip (getG [(2, "Pagamento AGÊNCIA 001")] 2)) = true ∧
    linhaRegistro ("", "") [(2, "Pagamento AGÊNCIA 001")] = none :=
  ⟨by decide,
   c3_filtro_excecoes.1 ["1234 IMPOSTO DE RENDA 1.234,56 - - 1.234,56"] _ (by decide),
   by decide,
   c3_filtro_excecoes.2 ("", "") [(2, "Pagamento AGÊNCIA 001")] (by decide)⟩

/-- C4: the metadata locator first searches the footer built from the last
8 lines joined by spaces and trimmed; if the pattern is not found there it
searches the page text with line breaks replaced by spaces; if still not
found it returns two empty strings. -/
theorem c4_busca_em_camadas (texto : String) :
    (∀ m, reSearch pattern_data_banco (rodapeDe texto) = some m →
        buscaDataBanco texto = (getG m 1, pyStrip (getG m 2))) ∧
    (reSearch pattern_data_banco (rodapeDe texto) = none →
      ∀ m, reSearch pattern_data_banco (textoSemQuebras texto) = some m →
        buscaDataBanco texto = (getG m 1, pyStrip (getG m 2))) ∧
    (reSearch pattern_data_banco (rodapeDe texto) = none →
      reSearch pattern_data_banco (textoSemQuebras texto) = none →
        buscaDataBanco texto = ("", "")) := by
  refine ⟨?_, ?_, ?_⟩
  · intro m hm
    simp [buscaDataBanco, hm]
  · intro h1 m hm
    simp [buscaDataBanco, h1, hm]
  · intro h1 h2
    simp [buscaDataBanco, h1, h2]

theorem c4_busca_em_camadas_witness :
    (reSearch pattern_data_banco (rodapeDe "pagina sem datas") = none ∧
     reSearch pattern_data_banco (textoSemQuebras "pagina sem datas") = none ∧
     buscaDataBanco "pagina sem datas" = ("", "")) ∧
    (∃ m, reSearch pattern_data_banco
        (rodapeDe "recolhido em\n31/01/2024 341 - BANCO ITAU S A") = some m ∧
      buscaDataBanco "recolhido em\n31/01/2024 341 - BANCO ITAU S A" =
        (getG m 1, pyStrip (getG m 2))) := by
  constructor
  · exact ⟨by decide, by decide,
      (c4_busca_em_camadas "pagina sem datas").2.2 (by decide) (by decide)⟩
  · refine ⟨[(2, "341 - BANCO ITAU S A"), (1, "31/01/2024")], by decide, ?_⟩
    exact (c4_busca_em_camadas "recolhido em\n31/01/2024 341 - BANCO ITAU S A").1
      [(2, "341 - BANCO ITAU S A"), (1, "31/01/2024")] (by decide)

/-- C5: on a page whose footer region ends in
`31/01/2024 341 - BANCO ITAU S A`, metadata extraction returns the date
`31/01/2024` and the bank `341 - BANCO ITAU S A`. -/
theorem c5_rodape_exemplo :
    rodapeDe "Pagamento efetuado em\n31/01/2024 341 - BANCO ITAU S A" =
      "Pagamento efetuado em 31/01/2024 341 - BANCO ITAU S A" ∧
    buscaDataBanco "Pagamento efetuado em\n31/01/2024 341 - BANCO ITAU S A" =
      ("31/01/2024", "341 - BANCO ITAU S A") := by
  constructor
  · decide
  · decide

/-- C6: metadata is recomputed per page.  Splitting the document around a
page `p` shows that the rows of `p` depend on `p` alone, and when the
date/bank pattern matches neither the footer nor the flattened text of `p`,
every row emitted from `p` carries empty date and bank strings, whatever
metadata the surrounding pages have. -/
theorem c6_metadata_por_pagina (antes depois : List String) (p : String)
    (h1 : reSearch pattern_data_banco (rodapeDe p) = none)
    (h2 : reSearch pattern_data_banco (textoSemQuebras p) = none) :
    extrairDados (antes ++ p :: depois) =
      extrairDados antes ++ registrosDaPagina p ++ extrairDados depois ∧
    ∀ r ∈ registrosDaPagina p, r.dataArrec = "" ∧ r.banco = "" := by
  constructor
  · rw [extrairDados, extrairDados, extrairDados,
      extrairLoop_eq, extrairLoop_eq, extrairLoop_eq]
    simp [List.append_assoc]
  · intro r hr
    obtain ⟨caps, _, hlr⟩ := mem_registrosDaPagina hr
    obtain ⟨-, -, -, hdata, hbanco, -⟩ := linhaRegistro_fields hlr
    have hmeta : buscaDataBanco p = ("", "") := by
      simp [buscaDataBanco, h1, h2]
    rw [hmeta] at hdata hbanco
    exact ⟨hdata, hbanco⟩

theorem c6_metadata_por_pagina_witness :
    reSearch pattern_data_banco
      (rodapeDe "1234 IMPOSTO DE RENDA 1.234,56 - - 1.234,56") = none ∧
    reSearch pattern_data_banco
      (textoSemQuebras "1234 IMPOSTO DE RENDA 1.234,56 - - 1.234,56") = none ∧
    (extrairDados (["Pagamento efetuado em\n31/01/2024 341 - BANCO ITAU S A"] ++
        "1234 IMPOSTO DE RENDA 1.234,56 - - 1.234,56" :: []) =
      extrairDados ["Pagamento efetuado em\n31/01/2024 341 - BANCO ITAU S A"] ++
        registrosDaPagina "1234 IMPOSTO DE RENDA 1.234,56 - - 1.234,56" ++
        extrairDados [] ∧
     ∀ r ∈ registrosDaPagina "1234 IMPOSTO DE RENDA 1.234,56 - - 1.234,56",
        r.dataArrec = "" ∧ r.banco = "") :=
  ⟨by decide, by decide,
   c6_metadata_por_pagina
     ["Pagamento efetuado em\n31/01/2024 341 - BANCO ITAU S A"] []
     "1234 IMPOSTO DE RENDA 1.234,56 - - 1.234,56" (by decide) (by decide)⟩

/-- C7: the extracted row sequence is the concatenation, in page order, of
the row sequences of the individual pages, and a page with no accepted
match contributes nothing. -/
theorem c7_concatenacao_por_pagina :
    (∀ paginas, extrairDados paginas = (paginas.map registrosDaPagina).flatten) ∧
    (∀ antes depois p, registrosDaPagina p = [] →
      extrairDados (antes ++ p :: depois) = extrairDados (antes ++ depois)) := by
  have hflat : ∀ paginas, extrairDados paginas =
      (paginas.map registrosDaPagina).flatten := by
    intro paginas
    rw [extrairDados, extrairLoop_eq, List.nil_append]
  refine ⟨hflat, ?_⟩
  intro antes depois p hp
  rw [hflat, hflat]
  simp [hp]

theorem c7_concatenacao_por_pagina_witness :
    registrosDaPagina "pagina em branco" = [] ∧
    extrairDados (["1234 IMPOSTO DE RENDA 1.234,56 - - 1.234,56"] ++
        "pagina em branco" :: ["outra pagina"]) =
      extrairDados (["1234 IMPOSTO DE RENDA 1.234,56 - - 1.234,56"] ++
        ["outra pagina"]) :=
  ⟨by decide,
   c7_concatenacao_por_pagina.2
     ["1234 IMPOSTO DE RENDA 1.234,56 - - 1.234,56"] ["outra pagina"]
     "pagina em branco" (by decide)⟩

/-- C8: when no match is accepted on any page, extraction returns the
empty list (no failure), and the caller turns the empty table into the
"no data extracted" warning, which differs from the success outcome. -/
theorem c8_sem_dados_aviso (paginas : List String)
    (h : ∀ p ∈ paginas, ∀ caps ∈ reFinditer pattern_linha p,
      linhaRegistro (buscaDataBanco p) caps = none) :
    extrairDados paginas = [] ∧
    uiResultado (extrairDados paginas) = UIOutcome.warning avisoSemDados ∧
    ∀ msg, UIOutcome.warning msg ≠ UIOutcome.success := by
  have hnil : extrairDados paginas = [] := by
    rw [extrairDados, extrairLoop_eq, List.nil_append]
    rw [List.flatten_eq_nil_iff]
    intro l hl
    obtain ⟨p, hp, rfl⟩ := List.mem_map.mp hl
    exact registrosDaPagina_eq_nil (h p hp)
  refine ⟨hnil, ?_, ?_⟩
  · rw [hnil]; rfl
  · intro msg hmsg
    cases hmsg

theorem c8_sem_dados_aviso_witness :
    (∀ p ∈ ["primeira pagina", "segunda pagina"],
      ∀ caps ∈ reFinditer pattern_linha p,
        linhaRegistro (buscaDataBanco p) caps = none) ∧
    extrairDados ["primeira pagina", "segunda pagina"] = [] ∧
    uiResultado (extrairDados ["primeira pagina", "segunda pagina"]) =
      UIOutcome.warning avisoSemDados :=
  ⟨by decide,
   (c8_sem_dados_aviso ["primeira pagina", "segunda pagina"] (by decide)).1,
   (c8_sem_dados_aviso ["primeira pagina", "segunda pagina"] (by decide)).2.1⟩

/-- C9: the whitespace separators of the line pattern match line breaks:
a record whose fields are separated by newlines instead of spaces is still
extracted as one row. -/
theorem c9_separadores_com_quebras :
    registrosDaPagina "1234\nIMPOSTO DE RENDA\n1.234,56\n-\n-\n1.234,56" =
      [{ codigo := "1234", descricao := "IMPOSTO DE RENDA",
         dataArrec := "", banco := "",
         principal := "1234.56", juros := "0.00",
         multa := "0.00", total := "1234.56" }] := by
  decide

/-- C10: the 4-digit code pattern is not anchored at a token boundary: on
a leading 5-digit number the extractor still emits a row, whose code is
the last 4 digits of that number. -/
theorem c10_codigo_sem_ancora :
    registrosDaPagina "12345 DESC 1,00 - - 1,00" =
      [{ codigo := "2345", descricao := "DESC",
         dataArrec := "", banco := "",
         principal := "1.00", juros := "0.00",
         multa := "0.00", total := "1.00" }] ∧
    String.mk ("12345".data.drop ("12345".data.length - 4)) = "2345" := by
  constructor
  · decide
  · decide

end LeitorDarf
